import Mathlib

/-
  Verification of the Inspection Deadline Tracking & Alert Engine of
  GestioneCollaudiValvole (src/valve_manager.py).

  Modelling conventions:
  * Calendar dates are represented by their proleptic-Gregorian ordinal
    (an `Int`), exactly the representation Python's `datetime.date`
    arithmetic works on: `d + timedelta(days = n)` is ordinal addition.
    `ymdToOrd` mirrors `date(y, m, d).toordinal()` for building concrete
    dates.
  * Each call to `date.today()` inside a scheduler tick is modelled by
    reading a clock oracle `clock : Nat → Int`: `clock 0` is the value
    consulted by the suppression check (valve_manager.py:1005), `clock 1`
    the snapshot taken before the notification loop (line 1010), and
    `clock (2+i)` the value read by iteration `i` of
    `update_valve_colors` (line 542, which calls `date.today()` anew on
    every loop iteration).
  * The sqlite tables `valves` and `valve_images` are modelled as lists
    in insertion order; image blobs are byte lists.
-/

/-- Day-count before January 1st of Gregorian year `y` (year 1 has none),
mirroring the formula behind Python's `date.toordinal`. -/
def daysBeforeYear (y : Nat) : Nat :=
  365 * (y - 1) + (y - 1) / 4 - (y - 1) / 100 + (y - 1) / 400

/-- Gregorian leap-year test, as in Python's `calendar.isleap`. -/
def isLeapYear (y : Nat) : Bool :=
  (y % 4 == 0 && y % 100 != 0) || y % 400 == 0

/-- Day-count in year `y` strictly before month `m`. -/
def daysBeforeMonth (y : Nat) (m : Nat) : Nat :=
  (match m with
   | 1 => 0 | 2 => 31 | 3 => 59 | 4 => 90 | 5 => 120 | 6 => 151
   | 7 => 181 | 8 => 212 | 9 => 243 | 10 => 273 | 11 => 304 | _ => 334)
  + (if 3 ≤ m then (if isLeapYear y then 1 else 0) else 0)

/-- Ordinal of the calendar date `y-m-d`, as `date(y, m, d).toordinal()`
in Python (0001-01-01 is day 1). -/
def ymdToOrd (y m d : Nat) : Int :=
  Int.ofNat (daysBeforeYear y + daysBeforeMonth y m + d)

/-- `valve[7] + timedelta(days=valve[8]*365)` of valve_manager.py
(lines 541, 591, 877, 932, 957, 976, 984, 1012): the next due date is the
last inspection date plus `interval_years * 365` days, with no
calendar-aware correction. -/
def due_date (last_inspection_date : Int) (interval_years : Int) : Int :=
  last_inspection_date + interval_years * 365

/-- Status classification of a valve relative to `today`; the branch
structure of `check_collauds` (valve_manager.py:1014-1026) and of
`update_valve_colors` (valve_manager.py:543-548). -/
inductive Status where
  | ok
  | dueSoon
  | expired
deriving DecidableEq

/-- The classification performed at valve_manager.py:1014-1026 (expired
if `next_collaud_date <= today`, due-soon if the remaining day-count is
at most `avviso_anticipo`, ok otherwise). -/
def classify (next_collaud_date : Int) (avviso_anticipo : Int) (today : Int) : Status :=
  if next_collaud_date ≤ today then Status.expired
  else if next_collaud_date - today ≤ avviso_anticipo then Status.dueSoon
  else Status.ok

/-- One row of the `valves` table (valve_manager.py:54-64), fields in
column order. -/
structure Valve where
  id : String
  costruttore : String
  tag : String
  posizione : String
  nominal_pressure : String
  inlet_diameter : String
  outlet_diameter : String
  last_collaud_date : Int
  years_until_collaud : Int
  avviso_anticipo : Int
deriving DecidableEq

/-- `next_collaud_date` as computed from a valve row (valve_manager.py:1012). -/
def next_collaud_date (v : Valve) : Int :=
  due_date v.last_collaud_date v.years_until_collaud

/-- The alert-suppression state: the `alerts_paused` / `pause_end_date`
fields of `ValveManager` (valve_manager.py:322-323). -/
structure AlertPolicy where
  alerts_paused : Bool
  pause_end_date : Option Int
deriving DecidableEq

/-- `pause_alerts` (valve_manager.py:518-527): assigns both fields,
ignoring the previous state; `today` stands for the `date.today()` call
at line 526. -/
def pause_alerts (_p : AlertPolicy) (today : Int) (days : Int) : AlertPolicy :=
  { alerts_paused := true, pause_end_date := some (today + days) }

/-- `resume_alerts` (valve_manager.py:529-534): assigns only
`alerts_paused`; `pause_end_date` is left untouched by the source. -/
def resume_alerts (p : AlertPolicy) : AlertPolicy :=
  { p with alerts_paused := false }

/-- The suppression test of valve_manager.py:1005:
`alerts_paused and pause_end_date is not None and today < pause_end_date`. -/
def is_suppressed (p : AlertPolicy) (today : Int) : Bool :=
  p.alerts_paused &&
    (match p.pause_end_date with
     | some d => decide (today < d)
     | none => false)

/-- Severity of a tray notification (`MessageIcon.Critical` /
`MessageIcon.Warning`, valve_manager.py:1018 and 1025). -/
inductive Severity where
  | warning
  | critical
deriving DecidableEq

/-- A tray notification as emitted by `check_collauds`. -/
structure NotificationEvent where
  valve_id : String
  severity : Severity
  message : String
deriving DecidableEq

/-- The critical message of valve_manager.py:1017. -/
def criticalMsg (v : Valve) : String :=
  "La valvola " ++ v.costruttore ++ " (ID: " ++ v.id ++ ") è scaduta."

/-- The warning message of valve_manager.py:1024, with the remaining-day
count `g` spliced in. -/
def warningMsg (v : Valve) (g : Int) : String :=
  ("La valvola " ++ v.costruttore ++ " (ID: " ++ v.id
    ++ ") deve essere collaudata entro ") ++ (toString g ++ " giorni.")

/-- The notification (if any) produced for one valve by the loop body of
`check_collauds` (valve_manager.py:1011-1026). -/
def eventFor (v : Valve) (today : Int) : Option NotificationEvent :=
  if next_collaud_date v ≤ today then
    some { valve_id := v.id, severity := Severity.critical,
           message := criticalMsg v }
  else if next_collaud_date v - today ≤ v.avviso_anticipo then
    some { valve_id := v.id, severity := Severity.warning,
           message := warningMsg v (next_collaud_date v - today) }
  else none

/-- Presentation colors assigned by `update_valve_colors`
(valve_manager.py:544-548). -/
inductive Color where
  | red
  | darkYellow
  | noColor
deriving DecidableEq

/-- The color computed for one valve at one `date.today()` reading
(valve_manager.py:541-548). -/
def presColor (v : Valve) (today : Int) : Color :=
  if next_collaud_date v ≤ today then Color.red
  else if next_collaud_date v - today ≤ v.avviso_anticipo then Color.darkYellow
  else Color.noColor

/-- `update_valve_colors` (valve_manager.py:536-548): each loop iteration
fetches its own `date.today()`, modelled by advancing the clock oracle
one step per valve. -/
def update_valve_colors (valves : List Valve) (clock : Nat → Int) : List Color :=
  match valves with
  | [] => []
  | v :: rest => presColor v (clock 0) :: update_valve_colors rest (fun n => clock (n + 1))

/-- The state read and written by one scheduler tick: the suppression
fields, the valve rows, and the list-item background colors currently
shown (one per valve, same order). -/
structure AppState where
  policy : AlertPolicy
  valves : List Valve
  colors : List Color
deriving DecidableEq

/-- The observable outcome of one tick: the notifications shown and the
item colors afterwards. -/
structure TickResult where
  events : List NotificationEvent
  colors : List Color
deriving DecidableEq

/-- `check_collauds` (valve_manager.py:1004-1030). When the suppression
test at line 1005 passes, the method returns at once: no events and no
call to `update_valve_colors` (colors keep their previous values).
Otherwise `today` is snapshotted once (line 1010) for the whole
notification loop, and then `update_valve_colors` runs with fresh
`date.today()` readings. -/
def check_collauds (st : AppState) (clock : Nat → Int) : TickResult :=
  if is_suppressed st.policy (clock 0) then
    { events := [], colors := st.colors }
  else
    { events := st.valves.filterMap (fun v => eventFor v (clock 1)),
      colors := update_valve_colors st.valves (fun n => clock (2 + n)) }

/-- One row of the `valve_images` table (valve_manager.py:65-68); the
blob is a byte list. -/
structure ImageRow where
  valve_id : String
  image : List Nat
deriving DecidableEq

/-- The persistent store: the `valves` and `valve_images` tables, rows in
insertion order. -/
structure DBState where
  valves : List Valve
  images : List ImageRow
deriving DecidableEq

/-- `Database.insert_valve` (valve_manager.py:127-147): a SELECT by id
first; if a row exists, return `False` without touching the store,
otherwise INSERT the row and return `True`. -/
def insert_valve (db : DBState) (v : Valve) : DBState × Bool :=
  if db.valves.any (fun w => w.id == v.id) then (db, false)
  else ({ db with valves := db.valves ++ [v] }, true)

/-- `Database.delete_valve` (valve_manager.py:172-184): DELETE the valve
row with the given id and every `valve_images` row with that `valve_id`;
the method has no failure result (the boolean `true` stands for its
unconditional normal return). -/
def delete_valve (db : DBState) (id : String) : DBState × Bool :=
  ({ valves := db.valves.filter (fun w => w.id != id),
     images := db.images.filter (fun r => r.valve_id != id) }, true)

/-- A concrete valve: due at ordinal 365, 90-day lead. -/
def vA : Valve :=
  { id := "V1", costruttore := "ACME", tag := "T1", posizione := "P1",
    nominal_pressure := "10", inlet_diameter := "1", outlet_diameter := "2",
    last_collaud_date := 0, years_until_collaud := 1, avviso_anticipo := 90 }

/-- A concrete valve far from due at ordinal 400 (due at 665). -/
def vB : Valve :=
  { id := "V2", costruttore := "BOLT", tag := "T2", posizione := "P2",
    nominal_pressure := "16", inlet_diameter := "2", outlet_diameter := "3",
    last_collaud_date := 300, years_until_collaud := 1, avviso_anticipo := 90 }

/-- A suppressed app state (pause active until ordinal 500) whose single
valve is already expired at ordinal 400, with a stale neutral color. -/
def stSup : AppState :=
  { policy := { alerts_paused := true, pause_end_date := some 500 },
    valves := [vA], colors := [Color.noColor] }

/-- A constant clock at ordinal 400. -/
def clk400 : Nat → Int := fun _ => 400

/-- An unsuppressed app state with one expired valve and one ok valve at
ordinal 400. -/
def stTwo : AppState :=
  { policy := { alerts_paused := false, pause_end_date := none },
    valves := [vA, vB], colors := [Color.noColor, Color.noColor] }

/-- An unsuppressed state holding the same valve twice, for observing a
mid-tick date rollover. -/
def stDup : AppState :=
  { policy := { alerts_paused := false, pause_end_date := none },
    valves := [vA, vA], colors := [Color.noColor, Color.noColor] }

/-- A clock that rolls over from ordinal 364 to 365 between the first and
the second `update_valve_colors` iteration (calls 0..2 see 364, later
calls see 365) — a nondecreasing, hence realizable, reading sequence. -/
def clkRoll : Nat → Int := fun n => if n ≤ 2 then 364 else 365

/-- A concrete store holding `vA` with one image row, plus an image row
of a second valve. -/
def dbOne : DBState :=
  { valves := [vA],
    images := [{ valve_id := "V1", image := [7, 7] },
               { valve_id := "V2", image := [9] }] }

/-- Claim C2, counterexample: after `pause_alerts` set
`pause_end_date = some 30`, a `resume_alerts` call leaves
`pause_end_date` non-null, contradicting the claim that `resume()` sets
`pause_until = null`. -/
theorem c2_resume_keeps_pause_end_date :
    (resume_alerts { alerts_paused := true, pause_end_date := some 30 }).pause_end_date ≠ none := by
  decide

/-- Claim C2, amended: after any call to `resume_alerts`, the state
satisfies `alerts_paused = false`, while `pause_end_date` is left exactly
as it was before the call (the source never clears it). -/
theorem c2_resume_clears_paused (p : AlertPolicy) :
    (resume_alerts p).alerts_paused = false ∧
    (resume_alerts p).pause_end_date = p.pause_end_date :=
  ⟨rfl, rfl⟩

/-- Claim C3: `classify` is a total partition with closed boundaries: it
returns `expired` exactly when `due ≤ today`, `dueSoon` exactly when
`0 < due - today ≤ lead`, and `ok` exactly when `lead < due - today`
(the three conditions partition the integers when `1 ≤ lead`); in
particular `due = today` gives `expired` and `due - today = lead` gives
`dueSoon`. -/
theorem c3_classify_partition (due lead today : Int) (hlead : 1 ≤ lead) :
    (classify due lead today = Status.expired ↔ due ≤ today) ∧
    (classify due lead today = Status.dueSoon ↔ 0 < due - today ∧ due - today ≤ lead) ∧
    (classify due lead today = Status.ok ↔ lead < due - today) ∧
    (due = today → classify due lead today = Status.expired) ∧
    (due - today = lead → classify due lead today = Status.dueSoon) := by
  by_cases h1 : due ≤ today
  · simp [classify, h1]
    omega
  · by_cases h2 : due - today ≤ lead
    · simp [classify, h1, h2]
      omega
    · simp [classify, h1, h2]
      omega

/-- Claim C3 witness at `due = 10`, `lead = 3`, `today = 7`. -/
theorem c3_classify_witness : classify 10 3 7 = Status.dueSoon :=
  (c3_classify_partition 10 3 7 (by decide)).2.2.2.2 (by decide)

/-- Claim C4: for every date `d` (as a Python ordinal) and positive `y`,
`due_date d y = d + 365 * y` with no calendar correction; concretely,
two years from 2023-01-10 lands on 2025-01-09 (the 730 days cross
2024-02-29), one day short of the calendar-aware 2025-01-10. -/
theorem c4_due_date_fixed_365 (d y : Int) (hy : 1 ≤ y) :
    due_date d y = d + 365 * y ∧
    due_date (ymdToOrd 2023 1 10) 2 = ymdToOrd 2025 1 9 ∧
    ymdToOrd 2025 1 9 ≠ ymdToOrd 2025 1 10 :=
  ⟨by unfold due_date; ring, by decide, by decide⟩

/-- Claim C4 witness at `d = 0`, `y = 2`. -/
theorem c4_due_date_witness : due_date 0 2 = 0 + 365 * 2 :=
  (c4_due_date_fixed_365 0 2 (by decide)).1

/-- Claim C5: `is_suppressed p today` holds exactly when `alerts_paused`
is set, `pause_end_date` is non-null and `today` is strictly before it;
hence it holds right after a `pause_alerts` with a positive duration, and
fails as soon as `today` reaches `pause_end_date` even without
`resume_alerts`. -/
theorem c5_is_suppressed_iff (p : AlertPolicy) (today : Int) :
    (is_suppressed p today = true ↔
      p.alerts_paused = true ∧ ∃ u, p.pause_end_date = some u ∧ today < u) ∧
    (∀ days : Int, 1 ≤ days → is_suppressed (pause_alerts p today days) today = true) ∧
    (∀ u : Int, p.pause_end_date = some u → u ≤ today → is_suppressed p today = false) := by
  refine ⟨?_, ?_, ?_⟩
  · cases hp : p.pause_end_date <;> simp [is_suppressed, hp]
  · intro days hdays
    simp [is_suppressed, pause_alerts]
    omega
  · intro u hu hle
    simp [is_suppressed, hu]
    omega

/-- Claim C5 witness: suppressed right after `pause_alerts _ 100 30`, and
not suppressed once today (100) has reached `pause_end_date` (50). -/
theorem c5_is_suppressed_witness :
    is_suppressed (pause_alerts { alerts_paused := false, pause_end_date := none } 100 30) 100 = true ∧
    is_suppressed { alerts_paused := true, pause_end_date := some 50 } 100 = false :=
  ⟨(c5_is_suppressed_iff { alerts_paused := false, pause_end_date := none } 100).2.1 30 (by decide),
   (c5_is_suppressed_iff { alerts_paused := true, pause_end_date := some 50 } 100).2.2 50 rfl (by decide)⟩

/-- Claim C7: `pause_alerts` overwrites the whole pause state, so pausing
twice on the same day is the same as the second pause alone, and the
resulting state is `alerts_paused = true`, `pause_end_date = today + b`. -/
theorem c7_pause_overwrites (p : AlertPolicy) (today a b : Int)
    (ha : 1 ≤ a) (hb : 1 ≤ b) :
    pause_alerts (pause_alerts p today a) today b = pause_alerts p today b ∧
    (pause_alerts p today b).alerts_paused = true ∧
    (pause_alerts p today b).pause_end_date = some (today + b) :=
  ⟨rfl, rfl, rfl⟩

/-- Claim C7 witness at `a = 1`, `b = 30`, `today = 100`. -/
theorem c7_pause_witness :
    pause_alerts (pause_alerts { alerts_paused := false, pause_end_date := none } 100 1) 100 30
      = pause_alerts { alerts_paused := false, pause_end_date := none } 100 30 :=
  (c7_pause_overwrites { alerts_paused := false, pause_end_date := none } 100 1 30
    (by decide) (by decide)).1

/-- Claim C1, counterexample: with suppression active at ordinal 400
(pause until 500) and an expired valve whose shown color is still
neutral, the tick emits no events but also leaves the colors stale
instead of recording the recomputed presentation status (red). -/
theorem c1_suppressed_tick_counterexample :
    (check_collauds stSup clk400).events = [] ∧
    (check_collauds stSup clk400).colors
      ≠ stSup.valves.map (fun v => presColor v (clk400 1)) := by
  decide

/-- Claim C1, amended: when suppression is active at the tick, the tick
emits zero events and performs no presentation-status update at all —
`check_collauds` returns before calling `update_valve_colors`, so the
colors keep their previous values. -/
theorem c1_suppressed_tick_no_events_no_recolor (st : AppState) (clock : Nat → Int)
    (h : is_suppressed st.policy (clock 0) = true) :
    (check_collauds st clock).events = [] ∧
    (check_collauds st clock).colors = st.colors := by
  simp [check_collauds, h]

/-- Claim C1 witness at the suppressed state `stSup` with clock 400. -/
theorem c1_suppressed_tick_witness :
    (check_collauds stSup clk400).events = [] ∧
    (check_collauds stSup clk400).colors = stSup.colors :=
  c1_suppressed_tick_no_events_no_recolor stSup clk400 (by decide)

/-- The loop body of `check_collauds` emits exactly the event dictated by
the valve's classification. -/
theorem eventFor_eq_of_classify (v : Valve) (t : Int) :
    eventFor v t =
      (match classify (next_collaud_date v) v.avviso_anticipo t with
       | Status.expired => some { valve_id := v.id, severity := Severity.critical,
                                  message := criticalMsg v }
       | Status.dueSoon => some { valve_id := v.id, severity := Severity.warning,
                                  message := warningMsg v (next_collaud_date v - t) }
       | Status.ok => none) := by
  by_cases h1 : next_collaud_date v ≤ t
  · simp [eventFor, classify, h1]
  · by_cases h2 : next_collaud_date v - t ≤ v.avviso_anticipo <;>
      simp [eventFor, classify, h1, h2]

/-- Claim C6: in an unsuppressed tick the emitted events are exactly one
optional event per valve in store order (`filterMap`, so no valve ever
contributes more than one); an expired valve contributes exactly one
critical event, a due-soon valve exactly one warning event whose message
contains the exact remaining-day count `next_collaud_date - today`, and
an ok valve contributes none. -/
theorem c6_unsuppressed_tick_events (st : AppState) (clock : Nat → Int)
    (h : is_suppressed st.policy (clock 0) = false) :
    (check_collauds st clock).events
      = st.valves.filterMap (fun v => eventFor v (clock 1)) ∧
    ∀ v : Valve,
      (classify (next_collaud_date v) v.avviso_anticipo (clock 1) = Status.expired →
        eventFor v (clock 1)
          = some { valve_id := v.id, severity := Severity.critical,
                   message := criticalMsg v }) ∧
      (classify (next_collaud_date v) v.avviso_anticipo (clock 1) = Status.dueSoon →
        eventFor v (clock 1)
          = some { valve_id := v.id, severity := Severity.warning,
                   message := warningMsg v (next_collaud_date v - clock 1) } ∧
        ∃ s t, warningMsg v (next_collaud_date v - clock 1)
          = s ++ (toString (next_collaud_date v - clock 1) ++ t)) ∧
      (classify (next_collaud_date v) v.avviso_anticipo (clock 1) = Status.ok →
        eventFor v (clock 1) = none) := by
  refine ⟨by simp [check_collauds, h], ?_⟩
  intro v
  refine ⟨?_, ?_, ?_⟩ <;> intro hc <;> rw [eventFor_eq_of_classify, hc]
  exact ⟨rfl, ⟨_, _, rfl⟩⟩

/-- Claim C6 witness: at ordinal 400, the two-valve store (one expired,
one ok) yields exactly the per-valve `filterMap` events. -/
theorem c6_tick_events_witness :
    (check_collauds stTwo clk400).events
      = stTwo.valves.filterMap (fun v => eventFor v (clk400 1)) :=
  (c6_unsuppressed_tick_events stTwo clk400 (by decide)).1

/-- Each position of `update_valve_colors` is computed with its own clock
reading: item `i` uses the `i`-th `date.today()` call of the loop. -/
theorem update_valve_colors_getElem (valves : List Valve) (clock : Nat → Int) (i : Nat) :
    (update_valve_colors valves clock)[i]?
      = (valves[i]?).map (fun v => presColor v (clock i)) := by
  induction valves generalizing clock i with
  | nil => simp [update_valve_colors]
  | cons v rest ih =>
    cases i with
    | zero => simp [update_valve_colors]
    | succ n => simp [update_valve_colors, ih]

/-- Claim C8, counterexample: at the rollover clock `clkRoll` (realizable
by a mid-tick date change from 364 to 365), the tick over two identical
valves records colors `[darkYellow, red]` — no single `today` value can
explain the recorded presentation statuses, so the tick does not use one
snapshot for every date comparison. -/
theorem c8_rollover_counterexample :
    ¬ ∃ t : Int, (check_collauds stDup clkRoll).colors
        = stDup.valves.map (fun v => presColor v t) := by
  intro hex
  obtain ⟨t, ht⟩ := hex
  have h1 : (check_collauds stDup clkRoll).colors = [Color.darkYellow, Color.red] := by
    decide
  have h2 : stDup.valves = [vA, vA] := rfl
  rw [h1, h2, List.map_cons, List.map_cons, List.map_nil] at ht
  have hA : Color.darkYellow = presColor vA t := (List.cons.injEq _ _ _ _).mp ht |>.1
  have hB : Color.red = presColor vA t :=
    ((List.cons.injEq _ _ _ _).mp ((List.cons.injEq _ _ _ _).mp ht).2).1
  exact absurd (hA.trans hB.symm) (by decide)

/-- Claim C8, amended: only the event-emission loop uses a single
snapshot — the emitted events depend on the clock solely through the
suppression reading (call 0) and the one snapshot (call 1) — while each
valve's presentation status is computed with its own later clock reading
(call `2 + i` for valve `i`). -/
theorem c8_single_snapshot_for_events_only (st : AppState) (c c' : Nat → Int)
    (h0 : c 0 = c' 0) (h1 : c 1 = c' 1) :
    (check_collauds st c).events = (check_collauds st c').events ∧
    (is_suppressed st.policy (c 0) = false →
      ∀ i : Nat, ((check_collauds st c).colors)[i]?
        = (st.valves[i]?).map (fun v => presColor v (c (2 + i)))) := by
  constructor
  · by_cases hs : is_suppressed st.policy (c 0) = true
    · have hs' : is_suppressed st.policy (c' 0) = true := h0 ▸ hs
      simp [check_collauds, hs, hs']
    · have hs2 : is_suppressed st.policy (c 0) = false := by
        simpa using hs
      have hs' : is_suppressed st.policy (c' 0) = false := h0 ▸ hs2
      simp [check_collauds, hs2, hs', h1]
  · intro hs i
    simp [check_collauds, hs, update_valve_colors_getElem]

/-- Claim C8 witness: at the rollover clock, valve 0's recorded color is
the one computed at its own clock reading (call 2). -/
theorem c8_single_snapshot_witness :
    ((check_collauds stDup clkRoll).colors)[0]?
      = (stDup.valves[0]?).map (fun v => presColor v (clkRoll 2)) :=
  (c8_single_snapshot_for_events_only stDup clkRoll clkRoll rfl rfl).2 (by decide) 0

/-- Claim C9: inserting a valve whose id already exists returns the
failure flag with the store untouched; inserting a fresh id returns
success with the valves extended by exactly the new row at the end; the
image table is never touched by an insert. -/
theorem c9_insert_valve_spec (db : DBState) (v : Valve) :
    ((∃ w ∈ db.valves, w.id = v.id) → insert_valve db v = (db, false)) ∧
    ((¬ ∃ w ∈ db.valves, w.id = v.id) →
      insert_valve db v = ({ db with valves := db.valves ++ [v] }, true)) ∧
    (insert_valve db v).1.images = db.images := by
  by_cases hb : db.valves.any (fun w => w.id == v.id) = true
  · have hex : ∃ w ∈ db.valves, w.id = v.id := by
      rw [List.any_eq_true] at hb
      obtain ⟨w, hw, he⟩ := hb
      exact ⟨w, hw, by simpa using he⟩
    exact ⟨fun _ => by simp [insert_valve, hb],
           fun hn => absurd hex hn,
           by simp [insert_valve, hb]⟩
  · have hnex : ¬ ∃ w ∈ db.valves, w.id = v.id := by
      intro hex
      apply hb
      rw [List.any_eq_true]
      obtain ⟨w, hw, he⟩ := hex
      exact ⟨w, hw, by simpa using he⟩
    exact ⟨fun hex => absurd hex hnex,
           fun _ => by simp [insert_valve, hb],
           by simp [insert_valve, hb]⟩

/-- Claim C9 witness: re-inserting `vA` into `dbOne` fails and leaves the
store unchanged; inserting the fresh `vB` succeeds and appends it. -/
theorem c9_insert_valve_witness :
    insert_valve dbOne vA = (dbOne, false) ∧
    insert_valve dbOne vB = ({ dbOne with valves := dbOne.valves ++ [vB] }, true) :=
  ⟨(c9_insert_valve_spec dbOne vA).1 (by decide),
   (c9_insert_valve_spec dbOne vB).2.1 (by decide)⟩

/-- Claim C10: deleting an id always reports ok; afterwards a valve row
is in the store iff it was there before and does not carry the deleted
id, and likewise an image row iff its `valve_id` is not the deleted id
(so every other valve's record and images survive, in order); deleting an
id present in neither table leaves the store exactly unchanged. -/
theorem c10_delete_valve_spec (db : DBState) (id : String) :
    (delete_valve db id).2 = true ∧
    (∀ w : Valve, w ∈ (delete_valve db id).1.valves ↔ w ∈ db.valves ∧ w.id ≠ id) ∧
    (∀ r : ImageRow, r ∈ (delete_valve db id).1.images ↔ r ∈ db.images ∧ r.valve_id ≠ id) ∧
    ((¬ ∃ w ∈ db.valves, w.id = id) → (¬ ∃ r ∈ db.images, r.valve_id = id) →
      (delete_valve db id).1 = db) := by
  refine ⟨rfl, ?_, ?_, ?_⟩
  · intro w
    simp [delete_valve, List.mem_filter]
  · intro r
    simp [delete_valve, List.mem_filter]
  · intro h1 h2
    have hv : db.valves.filter (fun w => w.id != id) = db.valves := by
      apply List.filter_eq_self.mpr
      intro w hw
      simp only [bne_iff_ne, ne_eq, decide_eq_true_eq]
      exact fun he => h1 ⟨w, hw, he⟩
    have hi : db.images.filter (fun r => r.valve_id != id) = db.images := by
      apply List.filter_eq_self.mpr
      intro r hr
      simp only [bne_iff_ne, ne_eq, decide_eq_true_eq]
      exact fun he => h2 ⟨r, hr, he⟩
    simp [delete_valve, hv, hi]

/-- Claim C10 witness: deleting the absent id "V3" from `dbOne` reports
ok and leaves the store exactly as it was. -/
theorem c10_delete_valve_witness :
    (delete_valve dbOne "V3").1 = dbOne ∧ (delete_valve dbOne "V3").2 = true :=
  ⟨(c10_delete_valve_spec dbOne "V3").2.2.2 (by decide) (by decide),
   (c10_delete_valve_spec dbOne "V3").1⟩
